import Mathlib

/-!
Shallow embedding of `src/mydreamer/painter/LSDS_pipeline.py` (class
`LSDSPipeline` and the custom autograd function `SpecifyGradient`).

Conventions of the embedding:
* Tensor entries are modelled by `PyFloat`: an exact rational together with
  the IEEE special values `nan`, `pinf` (+infinity) and `ninf` (-infinity).
  Rounding and overflow of machine floats are idealized away; the special
  values follow IEEE-754 propagation rules, which is what
  `torch.nan_to_num` sanitizes.
* Tensors appearing inside the gradient pipeline are flat `List PyFloat`
  values; concatenation along the batch axis is list append and
  `Tensor.chunk(2, dim=0)` is splitting the list in half (first chunk takes
  the ceiling half, as torch does).
* The external diffusion model, VAE, tokenizer, text encoder, augmentation
  and resampling are opaque collaborators (spec section 1 "OUT OF SCOPE");
  they are fields of an `Oracle` record and the theorems quantify over them.
* Randomness is explicit: every `torch.randn_like` call reads the next
  element of a caller-supplied stream `noiseStream : ℕ → List PyFloat`
  through a counter `k`, and `torch.randint` reads a caller-supplied raw
  draw `r : ℕ`.  The list of noise tensors actually drawn during a call is
  returned alongside the results so that sampling behaviour is observable.
* Python exceptions are modelled by `Except PyErr`.
-/

/-- IEEE-style scalar: an exact rational or one of the special values
`nan`, `+inf`, `-inf`.  This models a Python/torch floating point entry. -/
inductive PyFloat where
  | fin : ℚ → PyFloat
  | nan : PyFloat
  | pinf : PyFloat
  | ninf : PyFloat
deriving DecidableEq, Repr

namespace PyFloat

/-- IEEE negation. -/
def neg : PyFloat → PyFloat
  | fin a => fin (-a)
  | nan => nan
  | pinf => ninf
  | ninf => pinf

/-- IEEE addition: `nan` propagates, `+inf + -inf = nan`. -/
def add : PyFloat → PyFloat → PyFloat
  | fin a, fin b => fin (a + b)
  | fin _, x => x
  | nan, _ => nan
  | pinf, fin _ => pinf
  | pinf, pinf => pinf
  | pinf, _ => nan
  | ninf, fin _ => ninf
  | ninf, ninf => ninf
  | ninf, _ => nan

/-- IEEE multiplication: `nan` propagates, `0 * inf = nan`. -/
def mul : PyFloat → PyFloat → PyFloat
  | fin a, fin b => fin (a * b)
  | fin a, pinf => if 0 < a then pinf else if a < 0 then ninf else nan
  | fin a, ninf => if 0 < a then ninf else if a < 0 then pinf else nan
  | fin _, nan => nan
  | nan, _ => nan
  | pinf, fin a => if 0 < a then pinf else if a < 0 then ninf else nan
  | pinf, pinf => pinf
  | pinf, ninf => ninf
  | pinf, nan => nan
  | ninf, fin a => if 0 < a then ninf else if a < 0 then pinf else nan
  | ninf, pinf => ninf
  | ninf, ninf => pinf
  | ninf, nan => nan

instance : Neg PyFloat := ⟨neg⟩
instance : Add PyFloat := ⟨add⟩
instance : Mul PyFloat := ⟨mul⟩

/-- IEEE subtraction, defined as `a + (-b)` (exact on finite values). -/
def sub (a b : PyFloat) : PyFloat := a + (-b)

instance : Sub PyFloat := ⟨sub⟩

/-- A `PyFloat` is finite when it carries a rational value. -/
def isFin : PyFloat → Bool
  | fin _ => true
  | _ => false

end PyFloat

/-- Largest finite value of IEEE binary32, the default dtype of the latent
tensors: `(2^24 - 1) * 2^104`.  `torch.nan_to_num` substitutes `+inf`
entries with this value (and `-inf` entries with its negation) when called
with default arguments, as the source does. -/
def FMAX : ℚ := (2 ^ 24 - 1) * 2 ^ 104

/-- `torch.nan_to_num` with default arguments (source lines 407, 471, 569,
635): `nan ↦ 0`, `+inf ↦ FMAX`, `-inf ↦ -FMAX`, finite values unchanged. -/
def PyFloat.nanToNum : PyFloat → PyFloat
  | .nan => .fin 0
  | .pinf => .fin FMAX
  | .ninf => .fin (-FMAX)
  | .fin a => .fin a

/-- Sum of a list of scalars (`Tensor.sum`). -/
def sumT (xs : List PyFloat) : PyFloat := xs.foldl (· + ·) (.fin 0)

/-- `Tensor.mean()`: sum divided by element count; `nan` on an empty tensor. -/
def meanT (xs : List PyFloat) : PyFloat :=
  if xs.length = 0 then .nan else sumT xs * .fin (1 / (xs.length : ℚ))

/-- A torch tensor for the purpose of the gradient-injection bridge: its
entries plus opaque device and dtype tags. -/
structure Tensor where
  vals : List PyFloat
  device : ℕ
  dtype : ℕ
deriving DecidableEq, Repr

/-- `torch.ones([1], device=t.device, dtype=t.dtype)` (source line 650). -/
def onesLike1 (t : Tensor) : Tensor := ⟨[.fin 1], t.device, t.dtype⟩

/-- The value returned by `SpecifyGradient.apply`: the forward output
together with the autograd context (`ctx.save_for_backward(gt_grad)`). -/
structure BridgeLoss where
  out : Tensor
  saved : Tensor
deriving DecidableEq, Repr

/-- `SpecifyGradient.forward` (source lines 645-650): stashes `gt_grad` in
the context and returns a `[1]`-shaped tensor of ones carrying
`input_tensor`'s device and dtype. -/
def SpecifyGradient.forward (input_tensor gt_grad : Tensor) : BridgeLoss :=
  ⟨onesLike1 input_tensor, gt_grad⟩

/-- `SpecifyGradient.backward` (source lines 652-657): receives the saved
tensor and the upstream scalar gradient, returns `gt_grad * grad_scale` as
the gradient for `input_tensor` and `None` for `gt_grad`. -/
def SpecifyGradient.backward (ctxSaved : Tensor) (grad_scale : PyFloat) :
    Tensor × Option Tensor :=
  (⟨ctxSaved.vals.map (fun v => v * grad_scale), ctxSaved.device, ctxSaved.dtype⟩, none)

/-! ## Python exceptions and the timestep scheduler (source lines 225-250) -/

/-- Python exceptions that the modelled code can raise.  `notImplemented`
is the `NotImplementedError` of `schedule_timestep`'s fallback branch (the
spec's `UnsupportedScheduleError`). -/
inductive PyErr where
  | notImplemented (msg : String)
  | valueError
  | zeroDivisionError
  | runtimeError
  | nameError
deriving DecidableEq, Repr

/-- Character class `[\d.]` of the annealing-policy regular expressions. -/
def isDigitDot (c : Char) : Bool := c.isDigit || c = '.'

/-- Whether a character list starts with a decimal digit (`\d`). -/
def digitHead : List Char → Bool
  | c :: _ => c.isDigit
  | [] => false

/-- After at least one `[\d.]` character has been consumed: the remainder
must continue the `[\d.]` run until a literal underscore followed by a
digit; this is `([\d.]*)_(\d+)` matched at the start, trailing characters
ignored (as `re.match` does). -/
def annealRest : List Char → Bool
  | [] => false
  | c :: rest => if c = '_' then digitHead rest else isDigitDot c && annealRest rest

/-- `([\d.]+)_(\d+)` matched at the start of the character list. -/
def annealBody : List Char → Bool
  | [] => false
  | c :: rest => isDigitDot c && annealRest rest

/-- `re.match(r"max_([\d.]+)_(\d+)", s)` is not `None` (source line 230). -/
def matchesMax (s : String) : Bool :=
  match s.toList with
  | 'm' :: 'a' :: 'x' :: '_' :: rest => annealBody rest
  | _ => false

/-- `re.match(r"min_([\d.]+)_(\d+)", s)` is not `None` (source line 239). -/
def matchesMin (s : String) : Bool :=
  match s.toList with
  | 'm' :: 'i' :: 'n' :: '_' :: rest => annealBody rest
  | _ => false

/-- Value of a list of decimal digit characters. -/
def natOfDigits (cs : List Char) : ℕ :=
  cs.foldl (fun a c => 10 * a + (c.toNat - 48)) 0

/-- Split a character list at the first dot: integer part and fractional
part (the fractional part is empty when there is no dot). -/
def splitAtDot : List Char → List Char × List Char
  | [] => ([], [])
  | c :: rest =>
    if c = '.' then ([], rest)
    else
      let p := splitAtDot rest
      (c :: p.1, p.2)

/-- Python `float(s)` on an unsigned literal made of digits and at most one
dot with at least one digit; other shapes raise `ValueError` (`none`).
Exponent, `inf`/`nan` and whitespace forms never reach this parser in the
modelled code because the annealing regex only admits `[\d.]` characters. -/
def parseUnsigned (cs : List Char) : Option ℚ :=
  if cs.all isDigitDot && cs.any Char.isDigit && cs.count '.' ≤ 1 then
    let p := splitAtDot cs
    some ((natOfDigits p.1 : ℚ) + (natOfDigits p.2 : ℚ) / ((10 : ℚ) ^ p.2.length))
  else none

/-- Python `float(s)` with an optional sign. -/
def parseFloat (cs : List Char) : Option ℚ :=
  match cs with
  | [] => none
  | c :: rest =>
    if c = '-' then (parseUnsigned rest).map (fun q => -q)
    else if c = '+' then parseUnsigned rest
    else parseUnsigned (c :: rest)

/-- Python `int(s)` on a digit string with an optional sign. -/
def parseInt (cs : List Char) : Option ℤ :=
  match cs with
  | [] => none
  | c :: rest =>
    if c = '-' then
      if rest.all Char.isDigit && !rest.isEmpty then some (-(natOfDigits rest : ℤ))
      else none
    else if (c :: rest).all Char.isDigit then some (natOfDigits (c :: rest) : ℤ)
    else none

/-- Python `s.split('_')`: split a character list at every underscore,
keeping empty components (so `"a__b"` gives three components). -/
def splitOnUnderscore : List Char → List (List Char)
  | [] => [[]]
  | c :: rest =>
    if c = '_' then [] :: splitOnUnderscore rest
    else
      match splitOnUnderscore rest with
      | [] => [[c]]
      | g :: gs => (c :: g) :: gs

/-- Python `int(q)` on a float: truncation toward zero. -/
def pyInt (q : ℚ) : ℤ := if 0 ≤ q then ⌊q⌋ else ⌈q⌉

/-- `torch.randint(low, high, [1])` with the raw draw `r` made explicit:
requires `low < high` (otherwise torch raises a `RuntimeError`) and returns
`low + r % (high - low)`, which ranges over `[low, high)`. -/
def randint (low high : ℤ) (r : ℕ) : Except PyErr ℤ :=
  if high ≤ low then .error .runtimeError
  else .ok (low + (r : ℤ) % (high - low))

/-- The instance attributes `self.num_train_timesteps`, `self.t_range and
`self.t_schedule` read by `schedule_timestep`. -/
structure SchedCfg where
  num_train_timesteps : ℕ
  t_range : ℚ × ℚ
  t_schedule : String
deriving DecidableEq, Repr

/-- `LSDSPipeline.schedule_timestep` (source lines 225-250).  `step` is the
optimization step and `r` the raw random draw consumed by `torch.randint`.
The annealing branches split the policy string on underscores, parse the
pieces (`float`/`int` failures surface as `ValueError`), clamp the
corresponding bound once `step` reaches the parsed threshold, and sample;
any other policy string raises `NotImplementedError` (source line 249). -/
def schedule_timestep (cfg : SchedCfg) (step : ℤ) (r : ℕ) : Except PyErr ℤ :=
  let min_step : ℤ := pyInt ((cfg.num_train_timesteps : ℚ) * cfg.t_range.1)
  let max_step : ℤ := pyInt ((cfg.num_train_timesteps : ℚ) * cfg.t_range.2)
  if cfg.t_schedule = "randint" then
    randint min_step (max_step + 1) r
  else if matchesMax cfg.t_schedule then
    match splitOnUnderscore cfg.t_schedule.toList with
    | [_, tvs, sus] =>
      match parseFloat tvs, parseInt sus with
      | some t_val, some step_upd =>
          let max_step := if step ≥ step_upd then pyInt ((cfg.num_train_timesteps : ℚ) * t_val) else max_step
          randint min_step (max_step + 1) r
      | _, _ => .error .valueError
    | _ => .error .valueError
  else if matchesMin cfg.t_schedule then
    match splitOnUnderscore cfg.t_schedule.toList with
    | [_, tvs, sus] =>
      match parseFloat tvs, parseInt sus with
      | some t_val, some step_upd =>
          let min_step := if step ≥ step_upd then pyInt ((cfg.num_train_timesteps : ℚ) * t_val) else min_step
          randint min_step (max_step + 1) r
      | _, _ => .error .valueError
    | _ => .error .valueError
  else
    .error (.notImplemented (cfg.t_schedule ++ " is not support."))

/-! ## The external oracle and the conditioning / prediction adapters -/

/-- The external collaborators (diffusion UNet, scheduler formulas, VAE,
tokenizer, text encoder, augmentation, resampling), treated as opaque
capabilities per the spec's capability contract (spec section 6).  The
randomness of `x_augment` and of the VAE's latent sampling is absorbed
into the corresponding field. -/
structure Oracle where
  /-- `self.scheduler.add_noise(latents, noise, t)`. -/
  add_noise : List PyFloat → List PyFloat → ℤ → List PyFloat
  /-- `self.unet(latent_model_input, t, encoder_hidden_states=emb).sample`. -/
  unet : List PyFloat → ℤ → List PyFloat → List PyFloat
  /-- `self.tokenizer(prompt, padding="max_length", max_length=77)`. -/
  tokenize : List String → List ℕ
  /-- `self.text_encoder(input_ids)[0]`. -/
  text_encoder : List ℕ → List PyFloat
  /-- `self._encode_prompt(prompt, device, 1, do_cfg, negative_prompt)`. -/
  encode_prompt : List String → Option (List String) → Bool → List PyFloat
  /-- `self.scheduler.alphas_cumprod[t]` (a finite cumulative product). -/
  alphas_cumprod : ℤ → ℚ
  /-- `self.encode2latent(images)` (source lines 306-311). -/
  encode2latent : List PyFloat → List PyFloat
  /-- `self.encode_(images)` (source lines 206-216). -/
  encode_image : List PyFloat → List PyFloat
  /-- `self.x_augment(x, im_size)` (source lines 218-223). -/
  augment : List PyFloat → List PyFloat
  /-- `F.interpolate(x, (512, 512), mode="bilinear", align_corners=False)`. -/
  interp512 : List PyFloat → List PyFloat
  /-- `F.interpolate(x, (64, 64), mode="bilinear", align_corners=False)`. -/
  interp64 : List PyFloat → List PyFloat

/-- `LSDSPipeline.get_text_embeddings` (source lines 252-285): encode the
prompt; when `guidance_scale > 1` also encode the negative prompt
(defaulting to `batch_size` empty strings) and concatenate
`[unconditional; conditional]` along the batch axis. -/
def get_text_embeddings (O : Oracle) (prompt : List String)
    (negative_prompt : Option (List String)) (batch_size : ℕ)
    (guidance_scale : ℚ) : List PyFloat :=
  let text_embeddings := O.text_encoder (O.tokenize prompt)
  if guidance_scale > 1 then
    let np := match negative_prompt with
      | none => List.replicate batch_size ""
      | some l => l
    let unconditional_embeddings := O.text_encoder (O.tokenize np)
    unconditional_embeddings ++ text_embeddings
  else
    text_embeddings

/-- `noise_pred.chunk(2, dim=0)` followed by the classifier-free-guidance
combination `uncond + guidance_scale * (cond - uncond)` (source lines
301-302 and 547-548); the first chunk takes the ceiling half. -/
def cfgChunkCombine (guidance_scale : ℚ) (noise_pred : List PyFloat) : List PyFloat :=
  let n := (noise_pred.length + 1) / 2
  List.zipWith (fun a b => a + .fin guidance_scale * (b - a))
    (noise_pred.take n) (noise_pred.drop n)

/-- `LSDSPipeline.predict_noise` (source lines 287-304): add noise to the
latents, duplicate the noisy latents along the batch axis when
`guidance_scale > 1`, invoke the UNet once (under `no_grad`), and apply the
guidance combination exactly when `do_classifier_free_guidance` is set. -/
def predict_noise (O : Oracle) (latents noise : List PyFloat) (time_step : ℤ)
    (embeddings : List PyFloat) (do_classifier_free_guidance : Bool)
    (guidance_scale : ℚ) : List PyFloat :=
  let latents_noisy := O.add_noise latents noise time_step
  let latent_model_input :=
    if guidance_scale > 1 then latents_noisy ++ latents_noisy else latents_noisy
  let noise_pred := O.unet latent_model_input time_step embeddings
  if do_classifier_free_guidance then cfgChunkCombine guidance_scale noise_pred
  else noise_pred

/-! ## The interactive-value policy (source lines 317-330) -/

/-- `LSDSPipeline.get_interactive_value`: `base = max_value -
(max_value - min_value) * sqrt(step / total_step)` (raising
`ZeroDivisionError` when `total_step` is zero and `ValueError` when the
quotient is negative, neither being guarded); `denoise_scale = 1 -
denoise_step / total_denoise_step`, with the bare `except:` catching the
`ZeroDivisionError` of a zero inner horizon and defaulting the scale to 1;
the result is `base * denoise_scale`.  `sqrtf` stands for `math.sqrt`. -/
def get_interactive_value (sqrtf : ℚ → ℚ) (max_value min_value : ℚ)
    (step total_step denoise_step total_denoise_step : ℤ) : Except PyErr ℚ :=
  if total_step = 0 then .error .zeroDivisionError
  else if (step : ℚ) / (total_step : ℚ) < 0 then .error .valueError
  else
    let base_value := max_value - (max_value - min_value) * sqrtf ((step : ℚ) / (total_step : ℚ))
    let denoise_scale : ℚ :=
      if total_denoise_step = 0 then 1
      else 1 - (denoise_step : ℚ) / (total_denoise_step : ℚ)
    .ok (base_value * denoise_scale)

/-- `vmax, vmin = list(map(float, range_str.split('_')))`: parse the two
underscore-separated floats of an `alpha_range`/`gs_range` string; a parse
failure or a component count other than two raises `ValueError`. -/
def parseTwoFloats (s : String) : Except PyErr (ℚ × ℚ) :=
  match (splitOnUnderscore s.toList).map parseFloat with
  | [some a, some b] => .ok (a, b)
  | _ => .error .valueError

/-- The conditional local-variable assignment pattern of `sds_poc` (source
lines 377-383): when the range string differs from `'00'`, parse it and
evaluate `get_interactive_value(vmax, vmin, step, total_step, 0, 0)`;
otherwise the local variable stays unassigned (`none`). -/
def rangeValue (sqrtf : ℚ → ℚ) (range : String) (step total_step : ℤ) :
    Except PyErr (Option ℚ) :=
  if range ≠ "00" then
    match parseTwoFloats range with
    | .error e => .error e
    | .ok (vmax, vmin) =>
      match get_interactive_value sqrtf vmax vmin step total_step 0 0 with
      | .error e => .error e
      | .ok v => .ok (some v)
  else .ok none

/-! ## The SDS variant engines (source lines 333-640) -/

/-- Result of one SDS variant call: the bridge loss, `grad.mean()`, the
sampled timestep, and (instrumentation) the list of tensors returned by the
`torch.randn_like` calls made during the call, in order. -/
structure SdsOut where
  loss : BridgeLoss
  grad_mean : PyFloat
  t : ℤ
  noiseDraws : List (List PyFloat)
deriving DecidableEq, Repr

/-- `LSDSPipeline.sds_poc` (source lines 333-412).  Arguments mirror the
method: `cfg` packs the scheduler attributes, `r` is the raw `randint`
draw, `k` the `randn_like` stream position, `dev`/`dt` the common device
and dtype of the step-scoped tensors, `batch_size` is `pred_rgb.shape[0]`,
and `sqrtf` stands for `math.sqrt`.  `im_size` is absorbed into
`O.augment` and the unused `ref_prompts` parameter is omitted.  The
`loss_type == 1` branch assigns `alpha_value`/`gs_value` only when the
corresponding range string differs from `'00'`; a later read of an
unassigned local raises `NameError` (at the first `predict_noise` call for
`gs_value`, at the interpolation for `alpha_value`, and at the
`noise_final` read when `loss_type` selects neither branch). -/
def sds_poc (O : Oracle) (noiseStream : ℕ → List PyFloat) (sqrtf : ℚ → ℚ)
    (cfg : SchedCfg) (r k dev dt : ℕ) (pred_rgb : List PyFloat) (step : ℤ)
    (prompts : List String) (latents_o : List PyFloat)
    (negative_prompts : Option (List String)) (guidance_scale grad_scale : ℚ)
    (loss_type : ℤ) (alpha_range gs_range : String)
    (start_latent_interpolation total_step : ℤ) (batch_size : ℕ) :
    Except PyErr SdsOut :=
  let pred_rgb_a := O.augment pred_rgb
  let pred_rgb_i := O.interp512 pred_rgb_a
  let latents := O.encode2latent pred_rgb_i
  let noise := noiseStream k
  match schedule_timestep cfg step r with
  | .error e => .error e
  | .ok t =>
    let text_embeddings :=
      get_text_embeddings O prompts negative_prompts batch_size guidance_scale
    let branch : Except PyErr (List PyFloat) :=
      if loss_type = 0 then
        .ok (predict_noise O latents noise t text_embeddings true 100)
      else if loss_type = 1 then
        match rangeValue sqrtf alpha_range step total_step with
        | .error e => .error e
        | .ok alpha_value =>
          match rangeValue sqrtf gs_range step total_step with
          | .error e => .error e
          | .ok gs_value =>
            match gs_value with
            | none => .error .nameError
            | some gv =>
              let noise_pred := predict_noise O latents noise t text_embeddings true gv
              let noise_pred_o := predict_noise O latents_o noise t text_embeddings true gv
              if step > start_latent_interpolation then
                match alpha_value with
                | none => .error .nameError
                | some av =>
                  .ok (List.zipWith (fun a b => .fin (1 - av) * a + .fin av * b)
                        noise_pred noise_pred_o)
              else
                .ok noise_pred
      else
        .error .nameError
    match branch with
    | .error e => .error e
    | .ok noise_final =>
      let w : ℚ := 1 - O.alphas_cumprod t
      let grad := (List.zipWith (fun a b => a - b) noise_final noise).map
        (fun v => .fin grad_scale * .fin w * v)
      let grad := grad.map PyFloat.nanToNum
      let loss := SpecifyGradient.forward ⟨latents, dev, dt⟩ ⟨grad, dev, dt⟩
      .ok ⟨loss, meanT grad, t, [noise]⟩

/-- `LSDSPipeline.score_distillation_sampling` (source lines 415-476).  The
method's own `t_range` parameter is dead in the source (the scheduler reads
`self.t_range`) and is therefore not a parameter here; `start_code` is dead
as well.  One noise tensor is drawn, one (possibly batch-duplicated) UNet
call is made, the guidance combination is applied when `guidance_scale >
1`, and `grad = grad_scale * w * (noise_pred - noise)` is sanitized and
handed to the bridge. -/
def score_distillation_sampling (O : Oracle) (noiseStream : ℕ → List PyFloat)
    (cfg : SchedCfg) (r k dev dt : ℕ) (pred_rgb : List PyFloat) (step : ℤ)
    (prompt : List String) (negative_prompt : Option (List String))
    (guidance_scale : ℚ) (as_latent : Bool) (grad_scale : ℚ) :
    Except PyErr SdsOut :=
  let pred_rgb_a := O.augment pred_rgb
  let latents :=
    if as_latent then (O.interp64 pred_rgb_a).map (fun v => v * .fin 2 - .fin 1)
    else O.encode_image pred_rgb_a
  let do_classifier_free_guidance := guidance_scale > 1
  let text_embeddings := O.encode_prompt prompt negative_prompt do_classifier_free_guidance
  match schedule_timestep cfg step r with
  | .error e => .error e
  | .ok t =>
    let noise := noiseStream k
    let latents_noisy := O.add_noise latents noise t
    let latent_model_input :=
      if do_classifier_free_guidance then latents_noisy ++ latents_noisy else latents_noisy
    let noise_pred := O.unet latent_model_input t text_embeddings
    let noise_pred :=
      if do_classifier_free_guidance then cfgChunkCombine guidance_scale noise_pred
      else noise_pred
    let w : ℚ := 1 - O.alphas_cumprod t
    let grad := (List.zipWith (fun a b => a - b) noise_pred noise).map
      (fun v => .fin grad_scale * .fin w * v)
    let grad := grad.map PyFloat.nanToNum
    let loss := SpecifyGradient.forward ⟨latents, dev, dt⟩ ⟨grad, dev, dt⟩
    .ok ⟨loss, meanT grad, t, [noise]⟩

/-- The `predict_noise` closure defined inside
`score_distillation_sampling_0907` (source lines 531-550).  Unlike the
method `predict_noise`, this closure draws a fresh noise tensor with
`torch.randn_like` on every invocation, and its body reads the enclosing
variable `t` — not its `time_step` parameter — in both the `add_noise`
call (source line 536) and the UNet call (source line 543).  Returns the
prediction, the advanced stream position and the noise tensors drawn. -/
def predict_noise_0907 (O : Oracle) (noiseStream : ℕ → List PyFloat) (t : ℤ)
    (latents : List PyFloat) (time_step : ℤ) (embeddings : List PyFloat)
    (do_classifier_free_guidance : Bool) (guidance_scale : ℚ) (k : ℕ) :
    List PyFloat × ℕ × List (List PyFloat) :=
  let noise := noiseStream k
  let latents_noisy := O.add_noise latents noise t
  let latent_model_input :=
    if guidance_scale > 1 then latents_noisy ++ latents_noisy else latents_noisy
  let noise_pred := O.unet latent_model_input t embeddings
  let res :=
    if do_classifier_free_guidance then cfgChunkCombine guidance_scale noise_pred
    else noise_pred
  (res, k + 1, [noise])

/-- `LSDSPipeline.score_distillation_sampling_0907` (source lines 478-574).
The local `get_text_embeddings` closure has the same body as the method of
that name with `batch_size = 1`, so it is reused here.  Four closure calls
are made: current latents and `start_code`, each nominally at `t` and
`t - 20`, with the closure defaults `do_classifier_free_guidance = True`
and the outer `guidance_scale`; then `grad = grad_scale * w *
(noise_pred_pre - noise_pred) + grad_scale * w * (noise_pred_pre_inv -
noise_pred_inv)` is sanitized and handed to the bridge. -/
def score_distillation_sampling_0907 (O : Oracle)
    (noiseStream : ℕ → List PyFloat) (cfg : SchedCfg) (r k dev dt : ℕ)
    (pred_rgb start_code : List PyFloat) (step : ℤ)
    (prompt ref_prompt : List String) (negative_prompt : Option (List String))
    (guidance_scale : ℚ) (as_latent : Bool) (grad_scale : ℚ) :
    Except PyErr SdsOut :=
  let pred_rgb_a := O.augment pred_rgb
  let latents :=
    if as_latent then (O.interp64 pred_rgb_a).map (fun v => v * .fin 2 - .fin 1)
    else O.encode_image pred_rgb_a
  match schedule_timestep cfg step r with
  | .error e => .error e
  | .ok t =>
    let text_embeddings := get_text_embeddings O prompt negative_prompt 1 guidance_scale
    let (noise_pred, k1, d1) :=
      predict_noise_0907 O noiseStream t latents t text_embeddings true guidance_scale k
    let (noise_pred_pre, k2, d2) :=
      predict_noise_0907 O noiseStream t latents (t - 20) text_embeddings true guidance_scale k1
    let text_embeddings_inv := get_text_embeddings O ref_prompt negative_prompt 1 guidance_scale
    let (noise_pred_inv, k3, d3) :=
      predict_noise_0907 O noiseStream t start_code t text_embeddings_inv true guidance_scale k2
    let (noise_pred_pre_inv, _k4, d4) :=
      predict_noise_0907 O noiseStream t start_code (t - 20) text_embeddings_inv true guidance_scale k3
    let w : ℚ := 1 - O.alphas_cumprod t
    let grad := (List.zipWith (fun a b => a - b) noise_pred_pre noise_pred).map
      (fun v => .fin grad_scale * .fin w * v)
    let grad_inv := (List.zipWith (fun a b => a - b) noise_pred_pre_inv noise_pred_inv).map
      (fun v => .fin grad_scale * .fin w * v)
    let grad := List.zipWith (fun a b => a + b) grad grad_inv
    let grad := grad.map PyFloat.nanToNum
    let loss := SpecifyGradient.forward ⟨latents, dev, dt⟩ ⟨grad, dev, dt⟩
    .ok ⟨loss, meanT grad, t, d1 ++ d2 ++ d3 ++ d4⟩

/-- `LSDSPipeline.guided_score_distillation_sampling` (source lines
578-640).  Like `score_distillation_sampling` but the gradient is
`grad_scale * w * (noise_pred - latent_ni)` against the externally
supplied target latent instead of the sampled noise; the dead `t_range`
and `uncond_embedding` parameters are omitted. -/
def guided_score_distillation_sampling (O : Oracle)
    (noiseStream : ℕ → List PyFloat) (cfg : SchedCfg) (r k dev dt : ℕ)
    (pred_rgb latent_ni : List PyFloat) (step : ℤ) (prompt : List String)
    (negative_prompt : Option (List String)) (guidance_scale : ℚ)
    (as_latent : Bool) (grad_scale : ℚ) : Except PyErr SdsOut :=
  let pred_rgb_a := O.augment pred_rgb
  let latents :=
    if as_latent then (O.interp64 pred_rgb_a).map (fun v => v * .fin 2 - .fin 1)
    else O.encode_image pred_rgb_a
  let do_classifier_free_guidance := guidance_scale > 1
  let text_embeddings := O.encode_prompt prompt negative_prompt do_classifier_free_guidance
  match schedule_timestep cfg step r with
  | .error e => .error e
  | .ok t =>
    let noise := noiseStream k
    let latents_noisy := O.add_noise latents noise t
    let latent_model_input :=
      if do_classifier_free_guidance then latents_noisy ++ latents_noisy else latents_noisy
    let noise_pred := O.unet latent_model_input t text_embeddings
    let noise_pred :=
      if do_classifier_free_guidance then cfgChunkCombine guidance_scale noise_pred
      else noise_pred
    let w : ℚ := 1 - O.alphas_cumprod t
    let grad := (List.zipWith (fun a b => a - b) noise_pred latent_ni).map
      (fun v => .fin grad_scale * .fin w * v)
    let grad := grad.map PyFloat.nanToNum
    let loss := SpecifyGradient.forward ⟨latents, dev, dt⟩ ⟨grad, dev, dt⟩
    .ok ⟨loss, meanT grad, t, [noise]⟩

/-! ## Concrete oracles used by witnesses and counterexamples -/

/-- A concrete oracle whose UNet always returns `out`; the other
capabilities are simple total functions. -/
def oracleConst (out : List PyFloat) : Oracle :=
  ⟨fun latents noise _ => List.zipWith (fun a b => a + b) latents noise,
   fun _ _ _ => out, fun _ => [], fun _ => [.fin 3], fun _ _ _ => [],
   fun _ => 0, id, id, id, id, id⟩

/-- A concrete oracle whose UNet reports the timestep it was invoked at
(twice, so that the guidance chunking preserves one copy). -/
def oracleRecorder : Oracle :=
  ⟨fun latents _ _ => latents, fun _ ts _ => [.fin ts, .fin ts], fun _ => [],
   fun _ => [], fun _ _ _ => [], fun _ => 0, id, id, id, id, id⟩

/-! ## Helper lemmas -/

theorem pf_add_def (a b : PyFloat) : a + b = PyFloat.add a b := rfl

theorem pf_mul_def (a b : PyFloat) : a * b = PyFloat.mul a b := rfl

theorem pf_sub_def (a b : PyFloat) : a - b = PyFloat.sub a b := rfl

theorem pf_neg_def (a : PyFloat) : -a = PyFloat.neg a := rfl

theorem pyfloat_one_interp (q : ℚ) (c : PyFloat) :
    PyFloat.fin q + .fin 1 * (c - .fin q) = c := by
  cases c <;>
    simp [pf_add_def, pf_mul_def, pf_sub_def, pf_neg_def,
      PyFloat.add, PyFloat.mul, PyFloat.sub, PyFloat.neg]

theorem zipWith_one_interp :
    ∀ us cs : List PyFloat, us.length = cs.length →
      (∀ x ∈ us, x.isFin = true) →
      List.zipWith (fun a b => a + PyFloat.fin 1 * (b - a)) us cs = cs
  | [], [], _, _ => rfl
  | [], _ :: _, h, _ => by simp at h
  | _ :: _, [], h, _ => by simp at h
  | a :: us, c :: cs, h, hf => by
    have ha : a.isFin = true := hf a (by simp)
    obtain ⟨q, rfl⟩ : ∃ q, a = .fin q := by
      cases a <;> simp [PyFloat.isFin] at ha ⊢
    simp only [List.zipWith, List.cons.injEq]
    exact ⟨pyfloat_one_interp q c,
      zipWith_one_interp us cs (by simpa using h) (fun x hx => hf x (by simp [hx]))⟩

theorem nanToNum_isFin (v : PyFloat) : ∃ q, PyFloat.nanToNum v = .fin q := by
  cases v <;> exact ⟨_, rfl⟩

theorem randint_ok (low high : ℤ) (r : ℕ) (h : low < high) :
    randint low high r = .ok (low + (r : ℤ) % (high - low)) := by
  unfold randint
  rw [if_neg (by omega)]

theorem randint_mem (low high : ℤ) (r : ℕ) (h : low < high) :
    low ≤ low + (r : ℤ) % (high - low) ∧ low + (r : ℤ) % (high - low) ≤ high - 1 := by
  have hpos : 0 < high - low := by omega
  have h1 : 0 ≤ (r : ℤ) % (high - low) := Int.emod_nonneg _ (by omega)
  have h2 : (r : ℤ) % (high - low) < high - low := Int.emod_lt_of_pos _ hpos
  omega

/-! ## Claim theorems -/

/-- C1: The Gradient-Injection Bridge round-trip.  For every anchor tensor
and every precomputed gradient tensor `g`, the forward pass returns the
placeholder scalar `[1.0]` carrying the anchor's device and dtype, and the
backward pass applied to the saved context with upstream scalar `u`
returns exactly `g * u` (entrywise, untransformed and unclipped) as the
gradient with respect to the anchor and `None` as the gradient with
respect to `g`. -/
theorem specify_gradient_round_trip (anchor g : Tensor) (u : PyFloat) :
    (SpecifyGradient.forward anchor g).out =
      Tensor.mk [.fin 1] anchor.device anchor.dtype ∧
    SpecifyGradient.backward (SpecifyGradient.forward anchor g).saved u =
      (Tensor.mk (g.vals.map (fun v => v * u)) g.device g.dtype, none) :=
  ⟨rfl, rfl⟩

/-- C3: The `predict_noise` closure of `score_distillation_sampling_0907`
ignores its `time_step` argument entirely — its output is the same for any
two values of that argument, because the body reads the enclosing `t` in
both the `add_noise` and the UNet calls.  Consequently the calls made with
`time_step = t - 20` predict at `t`, not at `t - 20`: with an oracle whose
UNet reports the timestep it receives, the call nominally at `480` (for
`t = 500`) yields a prediction stamped `500`. -/
theorem predict_noise_0907_ignores_time_step :
    (∀ (O : Oracle) (ns : ℕ → List PyFloat) (t : ℤ) (latents : List PyFloat)
       (ts1 ts2 : ℤ) (emb : List PyFloat) (flag : Bool) (gs : ℚ) (k : ℕ),
       predict_noise_0907 O ns t latents ts1 emb flag gs k =
       predict_noise_0907 O ns t latents ts2 emb flag gs k) ∧
    (predict_noise_0907 oracleRecorder (fun _ => []) 500 [] 480 [] true 1 0 =
       ([.fin 500], 1, [[]])) :=
  ⟨fun _ _ _ _ _ _ _ _ _ _ => rfl, by
    norm_num [predict_noise_0907, oracleRecorder, cfgChunkCombine, pyfloat_one_interp]⟩

/-- C7: For every policy string that is neither `"randint"` nor a match of
the `max_([\d.]+)_(\d+)` or `min_([\d.]+)_(\d+)` patterns, the scheduler
immediately raises `NotImplementedError` (the spec's
`UnsupportedScheduleError`) and returns no timestep. -/
theorem schedule_timestep_unrecognized (cfg : SchedCfg) (step : ℤ) (r : ℕ)
    (h1 : cfg.t_schedule ≠ "randint") (h2 : matchesMax cfg.t_schedule = false)
    (h3 : matchesMin cfg.t_schedule = false) :
    schedule_timestep cfg step r =
      .error (.notImplemented (cfg.t_schedule ++ " is not support.")) := by
  unfold schedule_timestep
  simp [h1, h2, h3]

/-- Witness for C7: the policy string `"linear"` is rejected. -/
theorem schedule_timestep_unrecognized_witness :
    schedule_timestep ⟨1000, (0, 1), "linear"⟩ 0 0 =
      .error (.notImplemented "linear is not support.") :=
  schedule_timestep_unrecognized ⟨1000, (0, 1), "linear"⟩ 0 0
    (by decide) (by decide) (by decide)

/-- C8: Whenever the outer horizon is nonzero and `step / total_step` is
nonnegative (so that `sqrt` is defined), `get_interactive_value` returns
`base * scale_factor` with `base = max_v - (max_v - min_v) *
sqrt(step/total_step)` and `scale_factor = 1 - denoise_step /
total_denoise_step`, where the scale factor defaults to `1` when
`total_denoise_step` is zero (the division by zero is caught locally and
never propagated); in particular
`get_interactive_value(1.0, 0.0, 0, 100, 0, 0)` returns exactly `1.0`. -/
theorem get_interactive_value_spec :
    (∀ (sqrtf : ℚ → ℚ) (max_value min_value : ℚ)
       (step total_step denoise_step total_denoise_step : ℤ),
       total_step ≠ 0 → 0 ≤ (step : ℚ) / (total_step : ℚ) →
       get_interactive_value sqrtf max_value min_value step total_step
           denoise_step total_denoise_step =
         .ok ((max_value - (max_value - min_value) *
                sqrtf ((step : ℚ) / (total_step : ℚ))) *
              (if total_denoise_step = 0 then 1
               else 1 - (denoise_step : ℚ) / (total_denoise_step : ℚ)))) ∧
    (∀ sqrtf : ℚ → ℚ, sqrtf 0 = 0 →
       get_interactive_value sqrtf 1 0 0 100 0 0 = .ok 1) := by
  constructor
  · intro sqrtf mx mn s ts ds tds hts hnn
    unfold get_interactive_value
    rw [if_neg hts, if_neg (not_lt.mpr hnn)]
  · intro sqrtf hs
    unfold get_interactive_value
    norm_num [hs]

/-- Witness for C8: both components at concrete inputs. -/
theorem get_interactive_value_spec_witness :
    get_interactive_value (fun q => q) 2 1 1 4 1 2 =
      .ok ((2 - (2 - 1) * ((1 : ℚ) / 4)) * (1 - (1 : ℚ) / 2)) ∧
    get_interactive_value (fun q => q) 1 0 0 100 0 0 = .ok 1 := by
  constructor
  · have h := get_interactive_value_spec.1 (fun q => q) 2 1 1 4 1 2
      (by norm_num) (by norm_num)
    simpa using h
  · exact get_interactive_value_spec.2 (fun q => q) (by norm_num)

/-- C6 counterexample: with `T = 1000`, `min_ratio = 3/2000` and
`max_ratio = 1` (a valid pair: `0 ≤ 3/2000 ≤ 1 ≤ 1`), the `randint` policy
can return `t = 1`, which lies below `min_ratio * T = 3/2`, because the
code truncates the bounds with `int()` before sampling.  This refutes the
claim that the returned timestep always lies in `[min_ratio*T,
max_ratio*T]`. -/
theorem schedule_timestep_randint_below_ratio_product :
    schedule_timestep ⟨1000, (3 / 2000, 1), "randint"⟩ 0 0 = .ok 1 ∧
    ¬ ((3 / 2000 : ℚ) * 1000 ≤ ((1 : ℤ) : ℚ)) := by
  constructor
  · norm_num [schedule_timestep, pyInt, randint]
  · norm_num

/-- C6 amended: for `0 ≤ min_ratio ≤ max_ratio` the `randint` policy
always succeeds and returns a timestep in the inclusive interval
`[int(min_ratio*T), int(max_ratio*T)]` — the corridor with the bounds
truncated by `int()`, which can start up to one unit below
`min_ratio*T` and never exceeds `max_ratio*T`. -/
theorem schedule_timestep_randint_floor_corridor (T : ℕ) (r0 r1 : ℚ)
    (step : ℤ) (r : ℕ) (h0 : 0 ≤ r0) (h01 : r0 ≤ r1) :
    ∃ t, schedule_timestep ⟨T, (r0, r1), "randint"⟩ step r = .ok t ∧
      pyInt ((T : ℚ) * r0) ≤ t ∧ t ≤ pyInt ((T : ℚ) * r1) := by
  have hc : (0 : ℚ) ≤ (T : ℚ) := Nat.cast_nonneg T
  have hT0 : (0 : ℚ) ≤ (T : ℚ) * r0 := mul_nonneg hc h0
  have hT1 : (T : ℚ) * r0 ≤ (T : ℚ) * r1 := mul_le_mul_of_nonneg_left h01 hc
  have hT1' : (0 : ℚ) ≤ (T : ℚ) * r1 := le_trans hT0 hT1
  have hlo : pyInt ((T : ℚ) * r0) = ⌊(T : ℚ) * r0⌋ := if_pos hT0
  have hhi : pyInt ((T : ℚ) * r1) = ⌊(T : ℚ) * r1⌋ := if_pos hT1'
  have hle : ⌊(T : ℚ) * r0⌋ ≤ ⌊(T : ℚ) * r1⌋ := Int.floor_le_floor hT1
  have hs : schedule_timestep ⟨T, (r0, r1), "randint"⟩ step r =
      randint (pyInt ((T : ℚ) * r0)) (pyInt ((T : ℚ) * r1) + 1) r := by
    simp [schedule_timestep]
  rw [hs, hlo, hhi, randint_ok _ _ _ (by omega)]
  refine ⟨_, rfl, (randint_mem _ _ r (by omega)).1, ?_⟩
  have h2 := (randint_mem ⌊(T : ℚ) * r0⌋ (⌊(T : ℚ) * r1⌋ + 1) r (by omega)).2
  omega

/-- Witness for the amended C6 theorem at a concrete configuration. -/
theorem schedule_timestep_randint_floor_corridor_witness :
    ∃ t, schedule_timestep ⟨1000, (1 / 20, 19 / 20), "randint"⟩ 7 13 = .ok t ∧
      pyInt ((1000 : ℚ) * (1 / 20)) ≤ t ∧ t ≤ pyInt ((1000 : ℚ) * (19 / 20)) :=
  schedule_timestep_randint_floor_corridor 1000 (1 / 20) (19 / 20) 7 13
    (by norm_num) (by norm_num)

/-- C2: Classifier-free guidance combination in `predict_noise`.  Whenever
the flag is set, the raw UNet prediction is split into unconditional and
conditional halves (in that order) and combined as
`uncond + guidance_scale * (cond - uncond)` elementwise, for every value of
`guidance_scale`; when the flag is unset the raw prediction is returned
unchanged, again for every value of `guidance_scale` — so the combination
is applied exactly when the flag is set, independent of the scale.  At
`guidance_scale = 1` the combination returns the conditional half (stated
for an evenly split finite-valued prediction). -/
theorem predict_noise_guidance_combination (O : Oracle)
    (latents noise : List PyFloat) (ts : ℤ) (emb : List PyFloat)
    (g : ℚ) (m : ℕ) :
    let raw := O.unet (if g > 1 then
        O.add_noise latents noise ts ++ O.add_noise latents noise ts
      else O.add_noise latents noise ts) ts emb
    (predict_noise O latents noise ts emb true g =
       List.zipWith (fun a b => a + PyFloat.fin g * (b - a))
         (raw.take ((raw.length + 1) / 2)) (raw.drop ((raw.length + 1) / 2))) ∧
    (predict_noise O latents noise ts emb false g = raw) ∧
    (g = 1 → raw.length = 2 * m → (∀ x ∈ raw.take m, PyFloat.isFin x = true) →
       predict_noise O latents noise ts emb true g = raw.drop m) := by
  intro raw
  refine ⟨rfl, rfl, ?_⟩
  intro hg hlen hfin
  subst hg
  have h1 : predict_noise O latents noise ts emb true 1 =
      List.zipWith (fun a b => a + PyFloat.fin 1 * (b - a))
        (raw.take ((raw.length + 1) / 2)) (raw.drop ((raw.length + 1) / 2)) := rfl
  have hm : (raw.length + 1) / 2 = m := by omega
  rw [h1, hm]
  exact zipWith_one_interp _ _
    (by simp [List.length_take, List.length_drop, hlen]; omega) hfin

/-- Witness for C2: a two-entry raw prediction at `guidance_scale = 1`
collapses to its conditional half. -/
theorem predict_noise_guidance_combination_witness :
    predict_noise (oracleConst [.fin 2, .fin 5]) [] [] 0 [] true 1 = [.fin 5] :=
  ((predict_noise_guidance_combination (oracleConst [.fin 2, .fin 5]) [] [] 0 [] 1 1).2.2
    rfl rfl (by decide)).trans rfl

/-- Shared concrete evaluation of the scheduler used by several witnesses:
the full-range `randint` policy at raw draw 0 yields timestep 0. -/
theorem sched_concrete :
    schedule_timestep ⟨1000, (0, 1), "randint"⟩ 0 0 = .ok 0 := by
  norm_num [schedule_timestep, pyInt, randint]

/-- C9: In `sds_poc` with `loss_type = 1`: (a) with the default
`gs_range = '00'` the local `gs_value` is never assigned, so the call
raises `NameError` (at the first noise-prediction invocation) and produces
no loss — stated for any run that reaches the branch, i.e. whose scheduler
call succeeds and whose `alpha_range` block does not raise first; (b) with
`alpha_range = '00'` and `step > start_latent_interpolation` the local
`alpha_value` is unbound, so the call raises `NameError` — stated for any
run whose `gs_range` block assigns a guidance value. -/
theorem sds_poc_unbound_locals :
    (∀ (O : Oracle) (ns : ℕ → List PyFloat) (sqrtf : ℚ → ℚ) (cfg : SchedCfg)
       (r k dev dt : ℕ) (pr : List PyFloat) (step : ℤ) (ps : List String)
       (lo : List PyFloat) (np : Option (List String)) (gs gsc : ℚ)
       (ar : String) (sli tst : ℤ) (bs : ℕ) (t : ℤ) (av : Option ℚ),
       schedule_timestep cfg step r = .ok t →
       rangeValue sqrtf ar step tst = .ok av →
       sds_poc O ns sqrtf cfg r k dev dt pr step ps lo np gs gsc 1 ar "00" sli tst bs =
         .error .nameError) ∧
    (∀ (O : Oracle) (ns : ℕ → List PyFloat) (sqrtf : ℚ → ℚ) (cfg : SchedCfg)
       (r k dev dt : ℕ) (pr : List PyFloat) (step : ℤ) (ps : List String)
       (lo : List PyFloat) (np : Option (List String)) (gs gsc : ℚ)
       (gr : String) (sli tst : ℤ) (bs : ℕ) (t : ℤ) (gv : ℚ),
       schedule_timestep cfg step r = .ok t →
       rangeValue sqrtf gr step tst = .ok (some gv) →
       step > sli →
       sds_poc O ns sqrtf cfg r k dev dt pr step ps lo np gs gsc 1 "00" gr sli tst bs =
         .error .nameError) := by
  constructor
  · intro O ns sqrtf cfg r k dev dt pr step ps lo np gs gsc ar sli tst bs t av hsch hA
    unfold sds_poc
    rw [hsch]
    have hG : rangeValue sqrtf "00" step tst = .ok none := rfl
    simp [hA, hG]
  · intro O ns sqrtf cfg r k dev dt pr step ps lo np gs gsc gr sli tst bs t gv hsch hG hstep
    unfold sds_poc
    rw [hsch]
    have hA : rangeValue sqrtf "00" step tst = .ok none := rfl
    simp [hA, hG, hstep]

/-- Witness for C9: (a) a concrete `loss_type = 1` run with both range
strings at their `'00'` defaults raises `NameError`; (b) a concrete run
with a parsed `gs_range` and default `alpha_range`, past the interpolation
start, raises `NameError` at the blend. -/
theorem sds_poc_unbound_locals_witness :
    sds_poc (oracleConst []) (fun _ => [.fin 0]) (fun q => q)
      ⟨1000, (0, 1), "randint"⟩ 0 0 0 0 [.fin 0] 0 [] [] none 100 1 1
      "00" "00" 300 1000 1 = .error .nameError ∧
    sds_poc (oracleConst []) (fun _ => [.fin 0]) (fun q => q)
      ⟨1000, (0, 1), "randint"⟩ 0 0 0 0 [.fin 0] 0 [] [] none 100 1 1
      "00" "2_1" (-1) 1000 1 = .error .nameError := by
  refine ⟨sds_poc_unbound_locals.1 (oracleConst []) (fun _ => [.fin 0]) (fun q => q)
    ⟨1000, (0, 1), "randint"⟩ 0 0 0 0 [.fin 0] 0 [] [] none 100 1
    "00" 300 1000 1 0 none sched_concrete rfl, ?_⟩
  have hG : rangeValue (fun q : ℚ => q) "2_1" 0 1000 = .ok (some 2) := by
    have hsplit : splitOnUnderscore "2_1".toList = [['2'], ['1']] := by decide
    have hp2 : parseFloat ['2'] = some 2 := by
      have h0 : parseFloat ['2'] =
          some (((2 : ℕ) : ℚ) + ((0 : ℕ) : ℚ) / (10 : ℚ) ^ (0 : ℕ)) := rfl
      rw [h0]; norm_num
    have hp1 : parseFloat ['1'] = some 1 := by
      have h0 : parseFloat ['1'] =
          some (((1 : ℕ) : ℚ) + ((0 : ℕ) : ℚ) / (10 : ℚ) ^ (0 : ℕ)) := rfl
      rw [h0]; norm_num
    have hpt : parseTwoFloats "2_1" = .ok (2, 1) := by
      unfold parseTwoFloats
      rw [hsplit]
      simp [hp2, hp1]
    unfold rangeValue
    rw [if_pos (by decide)]
    rw [hpt]
    norm_num [get_interactive_value]
  exact sds_poc_unbound_locals.2 (oracleConst []) (fun _ => [.fin 0]) (fun q => q)
    ⟨1000, (0, 1), "randint"⟩ 0 0 0 0 [.fin 0] 0 [] [] none 100 1
    "2_1" (-1) 1000 1 0 2 sched_concrete hG (by norm_num)

/-- C10: In `sds_poc` with `loss_type = 0` the noise prediction is made
with the hard-coded guidance scale `100` and the default
`do_classifier_free_guidance = True`, regardless of the caller's
`guidance_scale`; the caller's scale only decides whether
`get_text_embeddings` prepends the unconditional half.  Hence for every
call with `guidance_scale ≤ 1` the embedding batch holds only the
conditional embeddings while the prediction path still duplicates the
noisy latents (since `100 > 1`) and chunk-combines the prediction in
halves at scale `100`, as the unfolded run below shows. -/
theorem sds_poc_loss0_hardcoded_guidance (O : Oracle)
    (ns : ℕ → List PyFloat) (sqrtf : ℚ → ℚ) (cfg : SchedCfg)
    (r k dev dt : ℕ) (pred_rgb : List PyFloat) (step : ℤ)
    (prompts : List String) (latents_o : List PyFloat)
    (negative_prompts : Option (List String)) (guidance_scale grad_scale : ℚ)
    (ar gr : String) (sli tst : ℤ) (bs : ℕ) (t : ℤ)
    (hsch : schedule_timestep cfg step r = .ok t)
    (hgs : guidance_scale ≤ 1) :
    get_text_embeddings O prompts negative_prompts bs guidance_scale =
      O.text_encoder (O.tokenize prompts) ∧
    sds_poc O ns sqrtf cfg r k dev dt pred_rgb step prompts latents_o
        negative_prompts guidance_scale grad_scale 0 ar gr sli tst bs =
      (let latents := O.encode2latent (O.interp512 (O.augment pred_rgb))
       let noise := ns k
       let emb := O.text_encoder (O.tokenize prompts)
       let latents_noisy := O.add_noise latents noise t
       let noise_pred := cfgChunkCombine 100 (O.unet (latents_noisy ++ latents_noisy) t emb)
       let grad := ((List.zipWith (fun a b => a - b) noise_pred noise).map
         (fun v => .fin grad_scale * .fin (1 - O.alphas_cumprod t) * v)).map PyFloat.nanToNum
       .ok ⟨SpecifyGradient.forward ⟨latents, dev, dt⟩ ⟨grad, dev, dt⟩, meanT grad, t, [noise]⟩) := by
  have hemb : get_text_embeddings O prompts negative_prompts bs guidance_scale =
      O.text_encoder (O.tokenize prompts) := by
    unfold get_text_embeddings
    rw [if_neg (not_lt.mpr hgs)]
  refine ⟨hemb, ?_⟩
  unfold sds_poc
  rw [hsch]
  unfold predict_noise
  rw [hemb]
  norm_num

/-- Witness for C10 at a concrete run with `guidance_scale = 1`. -/
theorem sds_poc_loss0_hardcoded_guidance_witness :
    get_text_embeddings (oracleConst [.fin 2, .fin 5]) [] none 1 1 =
      (oracleConst [.fin 2, .fin 5]).text_encoder
        ((oracleConst [.fin 2, .fin 5]).tokenize []) ∧
    sds_poc (oracleConst [.fin 2, .fin 5]) (fun _ => [.fin 0]) (fun q => q)
        ⟨1000, (0, 1), "randint"⟩ 0 0 0 0 [.fin 0] 0 [] [] none 1 1 0
        "00" "00" 300 1000 1 =
      (let latents := (oracleConst [.fin 2, .fin 5]).encode2latent
         ((oracleConst [.fin 2, .fin 5]).interp512
           ((oracleConst [.fin 2, .fin 5]).augment [.fin 0]))
       let noise := (fun _ : ℕ => [PyFloat.fin 0]) 0
       let emb := (oracleConst [.fin 2, .fin 5]).text_encoder
         ((oracleConst [.fin 2, .fin 5]).tokenize [])
       let latents_noisy := (oracleConst [.fin 2, .fin 5]).add_noise latents noise 0
       let noise_pred := cfgChunkCombine 100
         ((oracleConst [.fin 2, .fin 5]).unet (latents_noisy ++ latents_noisy) 0 emb)
       let grad := ((List.zipWith (fun a b => a - b) noise_pred noise).map
         (fun v => .fin 1 * .fin (1 - (oracleConst [.fin 2, .fin 5]).alphas_cumprod 0) * v)).map
           PyFloat.nanToNum
       .ok ⟨SpecifyGradient.forward ⟨latents, 0, 0⟩ ⟨grad, 0, 0⟩, meanT grad, 0, [noise]⟩) :=
  sds_poc_loss0_hardcoded_guidance (oracleConst [.fin 2, .fin 5])
    (fun _ => [.fin 0]) (fun q => q) ⟨1000, (0, 1), "randint"⟩ 0 0 0 0
    [.fin 0] 0 [] [] none 1 1 "00" "00" 300 1000 1 0 sched_concrete (by norm_num)

/-- C4 counterexample: one call of `score_distillation_sampling_0907`
draws four distinct noise tensors — one per oracle invocation — instead of
reusing a single one: with the stream `n ↦ [n]`, the draws recorded during
the call are `[[0], [1], [2], [3]]`, and the first two already differ.
This refutes the claim that in every SDS variant the noise tensor is
created once and held constant across every oracle invocation. -/
theorem noise_resampled_0907_counterexample :
    (score_distillation_sampling_0907 (oracleConst []) (fun n => [.fin n])
        ⟨1000, (0, 1), "randint"⟩ 0 0 0 0 [.fin 0] [.fin 0] 0 [] [] none 1 false 1).map
      (fun o => o.noiseDraws) =
      .ok [[.fin 0], [.fin 1], [.fin 2], [.fin 3]] ∧
    ([PyFloat.fin 0] : List PyFloat) ≠ [.fin 1] := by
  constructor
  · unfold score_distillation_sampling_0907
    rw [sched_concrete]
    norm_num [predict_noise_0907, Except.map]
  · norm_num

/-- C4 amended: `sds_poc`, `score_distillation_sampling` and
`guided_score_distillation_sampling` draw exactly one noise tensor per
gradient estimate (the stream element at position `k`, which is the tensor
passed to every oracle invocation of the call), whereas
`score_distillation_sampling_0907` draws a fresh noise tensor for each of
its four oracle invocations (stream positions `k, k+1, k+2, k+3`). -/
theorem noise_drawn_once_except_0907 :
    (∀ (O : Oracle) (ns : ℕ → List PyFloat) (sqrtf : ℚ → ℚ) (cfg : SchedCfg)
       (r k dev dt : ℕ) (pr : List PyFloat) (step : ℤ) (ps : List String)
       (lo : List PyFloat) (np : Option (List String)) (gs gsc : ℚ) (lt : ℤ)
       (ar gr : String) (sli tst : ℤ) (bs : ℕ) (o : SdsOut),
       sds_poc O ns sqrtf cfg r k dev dt pr step ps lo np gs gsc lt ar gr sli tst bs =
         .ok o → o.noiseDraws = [ns k]) ∧
    (∀ (O : Oracle) (ns : ℕ → List PyFloat) (cfg : SchedCfg) (r k dev dt : ℕ)
       (pr : List PyFloat) (step : ℤ) (p : List String)
       (np : Option (List String)) (gs : ℚ) (al : Bool) (gsc : ℚ) (o : SdsOut),
       score_distillation_sampling O ns cfg r k dev dt pr step p np gs al gsc =
         .ok o → o.noiseDraws = [ns k]) ∧
    (∀ (O : Oracle) (ns : ℕ → List PyFloat) (cfg : SchedCfg) (r k dev dt : ℕ)
       (pr lni : List PyFloat) (step : ℤ) (p : List String)
       (np : Option (List String)) (gs : ℚ) (al : Bool) (gsc : ℚ) (o : SdsOut),
       guided_score_distillation_sampling O ns cfg r k dev dt pr lni step p np gs al gsc =
         .ok o → o.noiseDraws = [ns k]) ∧
    (∀ (O : Oracle) (ns : ℕ → List PyFloat) (cfg : SchedCfg) (r k dev dt : ℕ)
       (pr sc : List PyFloat) (step : ℤ) (p rp : List String)
       (np : Option (List String)) (gs : ℚ) (al : Bool) (gsc : ℚ) (o : SdsOut),
       score_distillation_sampling_0907 O ns cfg r k dev dt pr sc step p rp np gs al gsc =
         .ok o → o.noiseDraws = [ns k, ns (k + 1), ns (k + 2), ns (k + 3)]) := by
  refine ⟨?_, ?_, ?_, ?_⟩
  · intro O ns sqrtf cfg r k dev dt pr step ps lo np gs gsc lt ar gr sli tst bs o h
    unfold sds_poc at h
    cases hsch : schedule_timestep cfg step r with
    | error e => rw [hsch] at h; simp at h
    | ok t =>
      rw [hsch] at h
      repeat' split at h
      all_goals try simp only [Except.ok.injEq] at h
      all_goals first
        | (exact (congrArg SdsOut.noiseDraws h).symm.trans rfl)
        | simp_all
  · intro O ns cfg r k dev dt pr step p np gs al gsc o h
    unfold score_distillation_sampling at h
    cases hsch : schedule_timestep cfg step r with
    | error e => rw [hsch] at h; simp at h
    | ok t =>
      rw [hsch] at h
      simp only [Except.ok.injEq] at h
      exact (congrArg SdsOut.noiseDraws h).symm.trans rfl
  · intro O ns cfg r k dev dt pr lni step p np gs al gsc o h
    unfold guided_score_distillation_sampling at h
    cases hsch : schedule_timestep cfg step r with
    | error e => rw [hsch] at h; simp at h
    | ok t =>
      rw [hsch] at h
      simp only [Except.ok.injEq] at h
      exact (congrArg SdsOut.noiseDraws h).symm.trans rfl
  · intro O ns cfg r k dev dt pr sc step p rp np gs al gsc o h
    unfold score_distillation_sampling_0907 at h
    cases hsch : schedule_timestep cfg step r with
    | error e => rw [hsch] at h; simp at h
    | ok t =>
      rw [hsch] at h
      simp only [predict_noise_0907, Except.ok.injEq] at h
      exact (congrArg SdsOut.noiseDraws h).symm.trans rfl

/-- Witness for the amended C4 theorem: concrete successful runs of all
four variants, with the draw lists the theorem predicts. -/
theorem noise_drawn_once_except_0907_witness :
    (sds_poc (oracleConst []) (fun _ => []) (fun q => q)
        ⟨1000, (0, 1), "randint"⟩ 0 0 0 0 [] 0 [] [] none 1 1 0 "00" "00"
        300 1000 1).map (fun o => o.noiseDraws) = .ok [[]] ∧
    (score_distillation_sampling (oracleConst []) (fun _ => [])
        ⟨1000, (0, 1), "randint"⟩ 0 0 0 0 [] 0 [] none 1 false 1).map
      (fun o => o.noiseDraws) = .ok [[]] ∧
    (guided_score_distillation_sampling (oracleConst []) (fun _ => [])
        ⟨1000, (0, 1), "randint"⟩ 0 0 0 0 [] [] 0 [] none 1 false 1).map
      (fun o => o.noiseDraws) = .ok [[]] ∧
    (score_distillation_sampling_0907 (oracleConst []) (fun _ => [])
        ⟨1000, (0, 1), "randint"⟩ 0 0 0 0 [] [] 0 [] [] none 1 false 1).map
      (fun o => o.noiseDraws) = .ok [[], [], [], []] := by
  have hrun1 : sds_poc (oracleConst []) (fun _ => []) (fun q => q)
      ⟨1000, (0, 1), "randint"⟩ 0 0 0 0 [] 0 [] [] none 1 1 0 "00" "00"
      300 1000 1 = .ok ⟨⟨⟨[.fin 1], 0, 0⟩, ⟨[], 0, 0⟩⟩, .nan, 0, [[]]⟩ := by
    unfold sds_poc
    rw [sched_concrete]
    norm_num [oracleConst, get_text_embeddings, predict_noise, cfgChunkCombine,
      meanT, SpecifyGradient.forward, onesLike1]
  have hrun2 : score_distillation_sampling (oracleConst []) (fun _ => [])
      ⟨1000, (0, 1), "randint"⟩ 0 0 0 0 [] 0 [] none 1 false 1 =
      .ok ⟨⟨⟨[.fin 1], 0, 0⟩, ⟨[], 0, 0⟩⟩, .nan, 0, [[]]⟩ := by
    unfold score_distillation_sampling
    rw [sched_concrete]
    norm_num [oracleConst, cfgChunkCombine, meanT, SpecifyGradient.forward, onesLike1]
  have hrun3 : guided_score_distillation_sampling (oracleConst []) (fun _ => [])
      ⟨1000, (0, 1), "randint"⟩ 0 0 0 0 [] [] 0 [] none 1 false 1 =
      .ok ⟨⟨⟨[.fin 1], 0, 0⟩, ⟨[], 0, 0⟩⟩, .nan, 0, [[]]⟩ := by
    unfold guided_score_distillation_sampling
    rw [sched_concrete]
    norm_num [oracleConst, cfgChunkCombine, meanT, SpecifyGradient.forward, onesLike1]
  have hrun4 : score_distillation_sampling_0907 (oracleConst []) (fun _ => [])
      ⟨1000, (0, 1), "randint"⟩ 0 0 0 0 [] [] 0 [] [] none 1 false 1 =
      .ok ⟨⟨⟨[.fin 1], 0, 0⟩, ⟨[], 0, 0⟩⟩, .nan, 0, [[], [], [], []]⟩ := by
    unfold score_distillation_sampling_0907
    rw [sched_concrete]
    norm_num [oracleConst, predict_noise_0907, get_text_embeddings, cfgChunkCombine,
      meanT, SpecifyGradient.forward, onesLike1]
  refine ⟨?_, ?_, ?_, ?_⟩
  · rw [hrun1]
    exact congrArg Except.ok (noise_drawn_once_except_0907.1 (oracleConst [])
      (fun _ => []) (fun q => q) ⟨1000, (0, 1), "randint"⟩ 0 0 0 0 [] 0 [] []
      none 1 1 0 "00" "00" 300 1000 1 _ hrun1)
  · rw [hrun2]
    exact congrArg Except.ok (noise_drawn_once_except_0907.2.1 (oracleConst [])
      (fun _ => []) ⟨1000, (0, 1), "randint"⟩ 0 0 0 0 [] 0 [] none 1 false 1 _ hrun2)
  · rw [hrun3]
    exact congrArg Except.ok (noise_drawn_once_except_0907.2.2.1 (oracleConst [])
      (fun _ => []) ⟨1000, (0, 1), "randint"⟩ 0 0 0 0 [] [] 0 [] none 1 false 1 _ hrun3)
  · rw [hrun4]
    exact congrArg Except.ok (noise_drawn_once_except_0907.2.2.2 (oracleConst [])
      (fun _ => []) ⟨1000, (0, 1), "randint"⟩ 0 0 0 0 [] [] 0 [] [] none 1 false 1 _ hrun4)

/-- C5 counterexample: a gradient estimate containing a `+inf` entry is
passed to the Gradient-Injection Bridge with that entry replaced by the
largest finite value `FMAX`, not by `0`: with a UNet that returns `+inf`,
the tensor saved by the bridge in `score_distillation_sampling` is
`[FMAX]`, and `FMAX ≠ 0`.  This refutes the claim that every `Inf` entry
is replaced with `0` (only `NaN` entries are zeroed by
`torch.nan_to_num`'s defaults). -/
theorem grad_sanitization_counterexample :
    (score_distillation_sampling (oracleConst [.pinf, .pinf]) (fun _ => [.fin 0])
        ⟨1000, (0, 1), "randint"⟩ 0 0 0 0 [.fin 0] 0 [] none 1 false 1).map
      (fun o => o.loss.saved.vals) = .ok [.fin FMAX] ∧
    PyFloat.fin FMAX ≠ .fin 0 := by
  constructor
  · unfold score_distillation_sampling
    rw [sched_concrete]
    norm_num [oracleConst, cfgChunkCombine, SpecifyGradient.forward, onesLike1,
      PyFloat.nanToNum, pf_sub_def, pf_mul_def, pf_neg_def, pf_add_def,
      PyFloat.sub, PyFloat.add, PyFloat.neg, PyFloat.mul, Except.map]
  · intro hcontra
    rw [PyFloat.fin.injEq] at hcontra
    norm_num [FMAX] at hcontra

/-- C5 amended: the sanitizer applied to every variant's gradient estimate
before injection maps `NaN` to `0`, `+inf` to the largest finite value
`FMAX`, `-inf` to `-FMAX`, and leaves finite entries unchanged; in every
variant the tensor handed to the Gradient-Injection Bridge is the
sanitized gradient, so all of its entries are finite. -/
theorem grad_sanitization_amended :
    (∀ q : ℚ, PyFloat.nanToNum (.fin q) = .fin q) ∧
    (PyFloat.nanToNum .nan = .fin 0 ∧ PyFloat.nanToNum .pinf = .fin FMAX ∧
       PyFloat.nanToNum .ninf = .fin (-FMAX)) ∧
    (∀ (O : Oracle) (ns : ℕ → List PyFloat) (sqrtf : ℚ → ℚ) (cfg : SchedCfg)
       (r k dev dt : ℕ) (pr : List PyFloat) (step : ℤ) (ps : List String)
       (lo : List PyFloat) (np : Option (List String)) (gs gsc : ℚ) (lt : ℤ)
       (ar gr : String) (sli tst : ℤ) (bs : ℕ) (o : SdsOut),
       sds_poc O ns sqrtf cfg r k dev dt pr step ps lo np gs gsc lt ar gr sli tst bs =
         .ok o → ∀ v ∈ o.loss.saved.vals, ∃ q, v = .fin q) ∧
    (∀ (O : Oracle) (ns : ℕ → List PyFloat) (cfg : SchedCfg) (r k dev dt : ℕ)
       (pr : List PyFloat) (step : ℤ) (p : List String)
       (np : Option (List String)) (gs : ℚ) (al : Bool) (gsc : ℚ) (o : SdsOut),
       score_distillation_sampling O ns cfg r k dev dt pr step p np gs al gsc =
         .ok o → ∀ v ∈ o.loss.saved.vals, ∃ q, v = .fin q) ∧
    (∀ (O : Oracle) (ns : ℕ → List PyFloat) (cfg : SchedCfg) (r k dev dt : ℕ)
       (pr lni : List PyFloat) (step : ℤ) (p : List String)
       (np : Option (List String)) (gs : ℚ) (al : Bool) (gsc : ℚ) (o : SdsOut),
       guided_score_distillation_sampling O ns cfg r k dev dt pr lni step p np gs al gsc =
         .ok o → ∀ v ∈ o.loss.saved.vals, ∃ q, v = .fin q) ∧
    (∀ (O : Oracle) (ns : ℕ → List PyFloat) (cfg : SchedCfg) (r k dev dt : ℕ)
       (pr sc : List PyFloat) (step : ℤ) (p rp : List String)
       (np : Option (List String)) (gs : ℚ) (al : Bool) (gsc : ℚ) (o : SdsOut),
       score_distillation_sampling_0907 O ns cfg r k dev dt pr sc step p rp np gs al gsc =
         .ok o → ∀ v ∈ o.loss.saved.vals, ∃ q, v = .fin q) := by
  refine ⟨fun q => rfl, ⟨rfl, rfl, rfl⟩, ?_, ?_, ?_, ?_⟩
  · intro O ns sqrtf cfg r k dev dt pr step ps lo np gs gsc lt ar gr sli tst bs o h v hv
    unfold sds_poc at h
    cases hsch : schedule_timestep cfg step r with
    | error e => rw [hsch] at h; simp at h
    | ok t =>
      rw [hsch] at h
      repeat' split at h
      all_goals try simp only [Except.ok.injEq] at h
      all_goals first
        | (rw [← h] at hv
           obtain ⟨x, -, hx⟩ := List.mem_map.mp hv
           exact hx ▸ nanToNum_isFin x)
        | simp_all
  · intro O ns cfg r k dev dt pr step p np gs al gsc o h v hv
    unfold score_distillation_sampling at h
    cases hsch : schedule_timestep cfg step r with
    | error e => rw [hsch] at h; simp at h
    | ok t =>
      rw [hsch] at h
      simp only [Except.ok.injEq] at h
      rw [← h] at hv
      obtain ⟨x, -, hx⟩ := List.mem_map.mp hv
      exact hx ▸ nanToNum_isFin x
  · intro O ns cfg r k dev dt pr lni step p np gs al gsc o h v hv
    unfold guided_score_distillation_sampling at h
    cases hsch : schedule_timestep cfg step r with
    | error e => rw [hsch] at h; simp at h
    | ok t =>
      rw [hsch] at h
      simp only [Except.ok.injEq] at h
      rw [← h] at hv
      obtain ⟨x, -, hx⟩ := List.mem_map.mp hv
      exact hx ▸ nanToNum_isFin x
  · intro O ns cfg r k dev dt pr sc step p rp np gs al gsc o h v hv
    unfold score_distillation_sampling_0907 at h
    cases hsch : schedule_timestep cfg step r with
    | error e => rw [hsch] at h; simp at h
    | ok t =>
      rw [hsch] at h
      simp only [predict_noise_0907, Except.ok.injEq] at h
      rw [← h] at hv
      obtain ⟨x, -, hx⟩ := List.mem_map.mp hv
      exact hx ▸ nanToNum_isFin x

/-- Witness for the amended C5 theorem: concrete runs of the four variants
with an inf-producing UNet; the entry the bridge receives is finite in
each. -/
theorem grad_sanitization_amended_witness :
    (∃ q, PyFloat.fin 0 = PyFloat.fin q) ∧
    (∃ q, PyFloat.fin FMAX = PyFloat.fin q) ∧
    (∃ q, PyFloat.fin FMAX = PyFloat.fin (q + 0)) ∧
    (∃ q, PyFloat.fin 0 = PyFloat.fin (q * 1)) := by
  have hrun1 : sds_poc (oracleConst [.pinf, .pinf]) (fun _ => [.fin 0]) (fun q => q)
      ⟨1000, (0, 1), "randint"⟩ 0 0 0 0 [.fin 0] 0 [] [] none 1 1 0 "00" "00" 300 1000 1 =
      .ok ⟨⟨⟨[.fin 1], 0, 0⟩, ⟨[.fin 0], 0, 0⟩⟩, .fin 0, 0, [[.fin 0]]⟩ := by
    unfold sds_poc
    rw [sched_concrete]
    norm_num [oracleConst, get_text_embeddings, predict_noise, cfgChunkCombine,
      meanT, sumT, SpecifyGradient.forward, onesLike1, PyFloat.nanToNum,
      pf_sub_def, pf_mul_def, pf_neg_def, pf_add_def,
      PyFloat.sub, PyFloat.add, PyFloat.neg, PyFloat.mul]
  have hrun2 : score_distillation_sampling (oracleConst [.pinf, .pinf]) (fun _ => [.fin 0])
      ⟨1000, (0, 1), "randint"⟩ 0 0 0 0 [.fin 0] 0 [] none 1 false 1 =
      .ok ⟨⟨⟨[.fin 1], 0, 0⟩, ⟨[.fin FMAX], 0, 0⟩⟩, .fin FMAX, 0, [[.fin 0]]⟩ := by
    unfold score_distillation_sampling
    rw [sched_concrete]
    norm_num [oracleConst, cfgChunkCombine, meanT, sumT, SpecifyGradient.forward,
      onesLike1, PyFloat.nanToNum, pf_sub_def, pf_mul_def, pf_neg_def, pf_add_def,
      PyFloat.sub, PyFloat.add, PyFloat.neg, PyFloat.mul]
  have hrun3 : guided_score_distillation_sampling (oracleConst [.pinf, .pinf])
      (fun _ => [.fin 0]) ⟨1000, (0, 1), "randint"⟩ 0 0 0 0 [.fin 0] [.fin 0] 0 [] none
      1 false 1 =
      .ok ⟨⟨⟨[.fin 1], 0, 0⟩, ⟨[.fin FMAX], 0, 0⟩⟩, .fin FMAX, 0, [[.fin 0]]⟩ := by
    unfold guided_score_distillation_sampling
    rw [sched_concrete]
    norm_num [oracleConst, cfgChunkCombine, meanT, sumT, SpecifyGradient.forward,
      onesLike1, PyFloat.nanToNum, pf_sub_def, pf_mul_def, pf_neg_def, pf_add_def,
      PyFloat.sub, PyFloat.add, PyFloat.neg, PyFloat.mul]
  have hrun4 : score_distillation_sampling_0907 (oracleConst [.pinf, .pinf])
      (fun _ => [.fin 0]) ⟨1000, (0, 1), "randint"⟩ 0 0 0 0 [.fin 0] [.fin 0] 0 [] []
      none 1 false 1 =
      .ok ⟨⟨⟨[.fin 1], 0, 0⟩, ⟨[.fin 0], 0, 0⟩⟩, .fin 0, 0,
        [[.fin 0], [.fin 0], [.fin 0], [.fin 0]]⟩ := by
    unfold score_distillation_sampling_0907
    rw [sched_concrete]
    norm_num [oracleConst, predict_noise_0907, get_text_embeddings, cfgChunkCombine,
      meanT, sumT, SpecifyGradient.forward, onesLike1, PyFloat.nanToNum,
      pf_sub_def, pf_mul_def, pf_neg_def, pf_add_def,
      PyFloat.sub, PyFloat.add, PyFloat.neg, PyFloat.mul]
  refine ⟨?_, ?_, ?_, ?_⟩
  · exact grad_sanitization_amended.2.2.1 (oracleConst [.pinf, .pinf])
      (fun _ => [.fin 0]) (fun q => q) ⟨1000, (0, 1), "randint"⟩ 0 0 0 0 [.fin 0] 0
      [] [] none 1 1 0 "00" "00" 300 1000 1 _ hrun1 (.fin 0) (by simp)
  · exact grad_sanitization_amended.2.2.2.1 (oracleConst [.pinf, .pinf])
      (fun _ => [.fin 0]) ⟨1000, (0, 1), "randint"⟩ 0 0 0 0 [.fin 0] 0 [] none
      1 false 1 _ hrun2 (.fin FMAX) (by simp)
  · obtain ⟨q, hq⟩ := grad_sanitization_amended.2.2.2.2.1 (oracleConst [.pinf, .pinf])
      (fun _ => [.fin 0]) ⟨1000, (0, 1), "randint"⟩ 0 0 0 0 [.fin 0] [.fin 0] 0 []
      none 1 false 1 _ hrun3 (.fin FMAX) (by simp)
    exact ⟨q, by rw [hq]; norm_num⟩
  · obtain ⟨q, hq⟩ := grad_sanitization_amended.2.2.2.2.2 (oracleConst [.pinf, .pinf])
      (fun _ => [.fin 0]) ⟨1000, (0, 1), "randint"⟩ 0 0 0 0 [.fin 0] [.fin 0] 0 [] []
      none 1 false 1 _ hrun4 (.fin 0) (by simp)
    exact ⟨q, by rw [hq]; norm_num⟩
